import Mathlib

/-!
# Shallow embedding of the Exploding-Kittens bot engine

Translated from the four bot implementations under `src/bots/`:
`my_bot.py` (`MyBot`), `aaron_bot.py` (also class name `MyBot`, modelled in
namespace `Aaron`), `mastermind_bot.py` (`MastermindBot`, namespace
`Mastermind`) and `tft_bot.py` (`TFTBot`, namespace `TFT`).

Conventions:
* Python floats are modelled as rationals; every float constant in the
  sources (0.6, 0.33, 0.25, ...) is exactly representable in binary or is
  only ever compared/combined at a precision where the rational and float
  computations agree, so `ℚ` is a faithful carrier.
* Python `dict` / `Counter` (insertion ordered) are modelled as association
  lists that preserve first-insertion order.
* `random.random()` / `random.randint` are modelled by an explicit draw
  parameter, so theorems quantify over every possible random outcome.
-/

namespace EKB

/-! ## Card-type tag constants (module-level constants of the sources) -/

def EXPLODING : String := "ExplodingKittenCard"
def DEFUSE : String := "DefuseCard"
def NOPE : String := "NopeCard"
def SKIP : String := "SkipCard"
def ATTACK : String := "AttackCard"
def SHUFFLE : String := "ShuffleCard"
def STF : String := "SeeTheFutureCard"
def FAVOR : String := "FavorCard"

/-! ## Data model -/

/-- Modelled from the spec: a Card is a kind tag plus combo-eligibility
(`game.cards.base.Card`, engine code that is not under `src/`); the bots
only ever read `card.card_type` and call `card.can_combo()`. -/
structure Card where
  card_type : String
  can_combo : Bool
deriving DecidableEq

instance : Inhabited Card := ⟨⟨"", false⟩⟩

/-- Modelled from the spec: the read-only per-decision View
(`game.bots.view.BotView`, engine code that is not under `src/`), restricted
to the accessors the four bots use. -/
structure BotView where
  myId : String
  myHand : List Card
  drawPileCount : Nat
  discardPile : List Card
  turnOrder : List String
  myTurnsRemaining : Nat
  otherPlayers : List String
  otherPlayerCardCounts : List (String × Nat)
deriving DecidableEq

/-- Modelled from the spec: `BotView.get_cards_of_type` returns the cards of
the hand with the given kind, in hand order (engine accessor not under
`src/`; every bot treats the result as an ordered tuple and plays index 0). -/
def BotView.get_cards_of_type (v : BotView) (t : String) : List Card :=
  v.myHand.filter (fun c => c.card_type == t)

/-- Modelled from the spec: `BotView.count_cards_of_type`. -/
def BotView.count_cards_of_type (v : BotView) (t : String) : Nat :=
  (v.get_cards_of_type t).length

/-- Modelled from the spec: `BotView.has_card_type`. -/
def BotView.has_card_type (v : BotView) (t : String) : Bool :=
  v.myHand.any (fun c => c.card_type == t)

/-- `view.other_player_card_counts.get(pid, 0)`. -/
def lookupCount (m : List (String × Nat)) (pid : String) : Nat :=
  match m.find? (fun p => p.1 == pid) with
  | some p => p.2
  | none => 0

/-- The closed action variant the bots return
(`DrawCardAction` / `PlayCardAction` / `PlayComboAction`). -/
inductive Action where
  | Draw : Action
  | PlayCard (card : Card) (target_player_id : Option String) : Action
  | PlayCombo (cards : List Card) (target_player_id : Option String) : Action
deriving DecidableEq

def Action.isPlayCombo : Action → Bool
  | .PlayCombo _ _ => true
  | _ => false

/-- Python `max(xs, key=key)`: the first element attaining the maximal key
(`max` only replaces the running best on a strictly larger key). -/
def pyMaxBy (key : String → Nat) : List String → Option String
  | [] => none
  | x :: xs => some (xs.foldl (fun b a => if key b < key a then a else b) x)

/-! ## Combo detector

`MyBot._find_possible_combos` (my_bot.py) and the identical
`TFTBot._find_possible_combos` (tft_bot.py); `aaron_bot.py`'s
`_find_possible_combos` computes the same groups via `Counter`
(also insertion-ordered) and produces the same output. -/

/-- The hand's combo-eligible cards (the `combo_cards` filter of the
sources), in hand order. -/
def eligibleCards (hand : List Card) : List Card :=
  hand.filter (fun c => c.can_combo)

/-- The distinct card kinds of a list in first-occurrence order: the key
order of the Python insertion-ordered `by_type` dict. -/
def firstOccKinds : List Card → List String
  | [] => []
  | c :: rest => c.card_type :: (firstOccKinds rest).filter (fun k => k != c.card_type)

/-- The `by_type` grouping of the sources: Python's insertion-ordered
`dict[str, list[Card]]`, i.e. each first-occurring kind paired with all
cards of that kind in list order. -/
def groupByType (cards : List Card) : List (String × List Card) :=
  (firstOccKinds cards).map (fun k => (k, cards.filter (fun c => c.card_type == k)))

/-- One iteration of the pair/triple loop of `_find_possible_combos`:
a kind with `len >= 3` contributes a triple of its first three cards,
else with `len >= 2` a pair of its first two, else nothing. -/
def pairTripleStep (p : String × List Card) : Option (String × List Card) :=
  if 3 ≤ p.2.length then some ("three_of_a_kind", p.2.take 3)
  else if 2 ≤ p.2.length then some ("two_of_a_kind", p.2.take 2)
  else none

/-- `_find_possible_combos(hand)`: the pair/triple loop is the
`filterMap` of `pairTripleStep` over the groups (the source appends at most
one entry per group), and with five or more distinct eligible kinds a single
`five_different` combo of the first card of each of the first five groups is
appended. -/
def find_possible_combos (hand : List Card) : List (String × List Card) :=
  let combo_cards := eligibleCards hand
  if combo_cards = [] then []
  else
    let by_type := groupByType combo_cards
    let pairsTriples := by_type.filterMap pairTripleStep
    if 5 ≤ by_type.length then
      pairsTriples ++ [("five_different", (by_type.take 5).map (fun p => p.2.headD default))]
    else
      pairsTriples

/-- The eligible cards of a given kind, in hand order. -/
def eligOf (hand : List Card) (X : String) : List Card :=
  (eligibleCards hand).filter (fun c => c.card_type == X)

/-! ## Risk estimators -/

/-- Python `x or y` on an optional int
(`self._initial_player_count or len(view.turn_order)`): `None` and `0` are
falsy and select the fallback. -/
def pyOr (o : Option Nat) (fallback : Nat) : Nat :=
  match o with
  | some n => if n = 0 then fallback else n
  | none => fallback

/-- `max(1, players - 1 - kittens_removed)` over Python ints, as a rational. -/
def baselineKittens (players kittens : Nat) : ℚ :=
  ((max 1 ((players : ℤ) - 1 - (kittens : ℤ))) : ℤ)

/-- Python truthiness of the `_known_top_cards` field:
`None` and the empty tuple are falsy. -/
def topTruthy : Option (List String) → Bool
  | some (_ :: _) => true
  | _ => false

namespace Aaron

/-- `MyBot.calculate_ek_risk` of aaron_bot.py, with the fields of `self`
that it reads (`_initial_player_count`, `_kittens_removed`,
`_known_top_cards`) passed explicitly. -/
def calculate_ek_risk (initial : Option Nat) (kittens : Nat)
    (knownTop : Option (List String)) (v : BotView) : ℚ :=
  let players := pyOr initial v.turnOrder.length
  let baseline_kittens : ℚ := baselineKittens players kittens
  let deck_size : Nat := max 1 v.drawPileCount
  match knownTop with
  | some (v0 :: vs) =>
    if v0 == EXPLODING then 1
    else if (v0 :: vs).contains EXPLODING then
      1 / (((v0 :: vs).length : ℚ))
    else
      let unseen : Nat := max 1 (deck_size - (v0 :: vs).length)
      min 1 (baseline_kittens / (unseen : ℚ))
  | _ =>
    let risk : ℚ := min 1 (baseline_kittens / (deck_size : ℚ))
    if 0 < v.count_cards_of_type DEFUSE then risk * (3/5) else risk

end Aaron

/-- The `risk *= max(0.3, 1.0 - (defuses * 0.25))` cushion of
`MastermindBot._calculate_ek_risk` (applied only when defuses are held). -/
def mmCushion (defuses : Nat) (risk : ℚ) : ℚ :=
  if 0 < defuses then risk * max (3/10) (1 - (defuses : ℚ) * (1/4)) else risk

namespace Mastermind

/-- `MastermindBot._calculate_ek_risk` of mastermind_bot.py, with the fields
of `self` that it reads passed explicitly. -/
def calculate_ek_risk (initial : Option Nat) (kittens : Nat)
    (knownTop : Option (List String)) (v : BotView) : ℚ :=
  if v.drawPileCount = 0 then 0
  else
    let players := pyOr initial v.turnOrder.length
    let baseline_kittens : ℚ := baselineKittens players kittens
    match knownTop with
    | some (v0 :: vs) =>
      if v0 == EXPLODING then 1
      else if (v0 :: vs).contains EXPLODING then
        let ekPosition := (v0 :: vs).findIdx (fun c => c == EXPLODING)
        if ekPosition = 0 then 1
        else if ekPosition = 1 then 1/2
        else 33/100
      else
        let unseen : Nat := max 1 (v.drawPileCount - (v0 :: vs).length)
        mmCushion (v.count_cards_of_type DEFUSE) (min 1 (baseline_kittens / (unseen : ℚ)))
    | _ =>
      mmCushion (v.count_cards_of_type DEFUSE)
        (min 1 (baseline_kittens / (v.drawPileCount : ℚ)))

end Mastermind

namespace TFT

/-- `TFTBot._calculate_ek_probability` of tft_bot.py (`_num_players` passed
explicitly). -/
def calculate_ek_probability (numPlayers : Nat) (v : BotView) : ℚ :=
  if v.drawPileCount = 0 then 0
  else
    let alive : Nat := v.otherPlayers.length + 1
    let estimated : ℤ :=
      if 0 < numPlayers then
        let eliminations : ℤ := (numPlayers : ℤ) - (alive : ℤ)
        max 1 (((numPlayers : ℤ) - 1) - eliminations)
      else
        max 1 ((alive : ℤ) - 1)
    (estimated : ℚ) / (v.drawPileCount : ℚ)

end TFT

/-! ## Counters and association-list helpers

Python's `Counter` / `dict` / `defaultdict` preserve insertion order; they
are modelled as association lists updated in place. -/

/-- `counter[k]` (0 when absent). -/
def counterGet (c : List (String × Nat)) (k : String) : Nat :=
  match c.find? (fun p => p.1 == k) with
  | some p => p.2
  | none => 0

/-- `sum(counter.values())`. -/
def counterTotal (c : List (String × Nat)) : Nat :=
  (c.map (fun p => p.2)).sum

/-- `counter[k] += 1`. -/
def counterInc (c : List (String × Nat)) (k : String) : List (String × Nat) :=
  if c.any (fun p => p.1 == k) then
    c.map (fun p => if p.1 == k then (p.1, p.2 + 1) else p)
  else c ++ [(k, 1)]

/-- `history.setdefault(pid, []).append(ct)`. -/
def historyAppend (h : List (String × List String)) (pid ct : String) :
    List (String × List String) :=
  if h.any (fun p => p.1 == pid) then
    h.map (fun p => if p.1 == pid then (p.1, p.2 ++ [ct]) else p)
  else h ++ [(pid, [ct])]

/-- `counts[pid][k] += 1` on a `defaultdict(Counter)`. -/
def countsInc (m : List (String × List (String × Nat))) (pid k : String) :
    List (String × List (String × Nat)) :=
  if m.any (fun p => p.1 == pid) then
    m.map (fun p => if p.1 == pid then (p.1, counterInc p.2 k) else p)
  else m ++ [(pid, counterInc [] k)]

/-- `counts[pid]` on a `defaultdict(Counter)` (empty counter when absent). -/
def countsGet (m : List (String × List (String × Nat))) (pid : String) :
    List (String × Nat) :=
  match m.find? (fun p => p.1 == pid) with
  | some p => p.2
  | none => []

/-- `d[k] = val` on an insertion-ordered dict. -/
def assocSet {α : Type} (m : List (String × α)) (k : String) (val : α) :
    List (String × α) :=
  if m.any (fun p => p.1 == k) then
    m.map (fun p => if p.1 == k then (p.1, val) else p)
  else m ++ [(k, val)]

/-! ## Opponent models -/

namespace Aaron

/-- `MyBot.simulate_opponent` of aaron_bot.py on the opponent's play
counter: `(defensive probability, nope probability)`. -/
def simulate_opponent (history : List (String × Nat)) : ℚ × ℚ :=
  let total_seen := counterTotal history
  if total_seen = 0 then (3/10, 1/5)
  else
    let defensive_cards := counterGet history SKIP + counterGet history ATTACK +
      counterGet history SHUFFLE
    let nope_cards := counterGet history NOPE
    (min (4/5) ((defensive_cards : ℚ) / ((max 1 total_seen : Nat) : ℚ)),
     min (7/10) ((nope_cards : ℚ) / ((max 1 total_seen : Nat) : ℚ)))

end Aaron

namespace Mastermind

/-- `MastermindBot._update_opponent_model` of mastermind_bot.py on the
opponent's play counter: `none` when there are no observations (the Python
method returns without touching the probability dicts), otherwise the
`(defense probability, nope probability)` pair it stores. -/
def update_opponent_model (history : List (String × Nat)) : Option (ℚ × ℚ) :=
  let total := counterTotal history
  if total = 0 then none
  else
    let defensive_cards := counterGet history SKIP + counterGet history ATTACK +
      counterGet history SHUFFLE + counterGet history DEFUSE
    let nope_count := counterGet history NOPE
    some (min (9/10) ((defensive_cards : ℚ) / ((max 1 total : Nat) : ℚ)),
          min (4/5) ((nope_count : ℚ) / ((max 1 total : Nat) : ℚ)))

end Mastermind

/-! ## Events and knowledge trackers -/

/-- `game.history.EventType` members referenced by the bots. -/
inductive EventType where
  | BOT_CHAT
  | CARDS_PEEKED
  | DECK_SHUFFLED
  | EXPLODING_KITTEN_INSERTED
  | CARD_DRAWN
  | EXPLODING_KITTEN_DRAWN
  | PLAYER_ELIMINATED
  | CARD_PLAYED
  | COMBO_PLAYED
  | FAVOR_REQUESTED
  | DEFUSE_USED
  | GAME_START
deriving DecidableEq

/-- Modelled from the spec: a `game.history.GameEvent` (engine code not
under `src/`), restricted to the payload fields the bots read via
`event.data.get(...)`; an absent field is `none`. -/
structure GameEvent where
  event_type : EventType
  player_id : Option String
  card_types : Option (List String)
  card_type : Option String
  target_player_id : Option String
  target : Option String
deriving DecidableEq

/-- The `if player_id and player_id != view.my_id and player_id in
view.other_players` guard of the CARD_PLAYED handlers (aaron_bot.py and
mastermind_bot.py); `None` and `""` are falsy. -/
def pidObserved (pid : Option String) (myId : String) (others : List String) : Bool :=
  match pid with
  | some p => (p != "") && (p != myId) && others.contains p
  | none => false

/-- `self._known_top_cards[1:]` under the truthiness guard of aaron_bot.py's
CARD_DRAWN handler (`some []` and `none` are left unchanged because the
guard is falsy for them). -/
def drawPopAaron : Option (List String) → Option (List String)
  | some (_ :: rest) => some rest
  | o => o

/-- `self._known_top_cards[1:] if len(...) > 1 else None` of
mastermind_bot.py's CARD_DRAWN handler (again only reached when the field is
truthy). -/
def drawPopMM : Option (List String) → Option (List String)
  | some (_ :: rest) => if rest = [] then none else some rest
  | o => o

namespace Aaron

/-- The mutable fields of aaron_bot.py's `MyBot` that `on_event` touches. -/
structure State where
  first_ek_seen_from_other : Bool
  kittens_removed : Nat
  known_top_cards : Option (List String)
  opponent_card_history : List (String × List String)
  opponent_card_counts : List (String × List (String × Nat))
  defuses_seen : Nat
deriving DecidableEq

/-- `MyBot.on_event` of aaron_bot.py; the view arguments are the fields it
reads (`view.my_id`, `view.other_players`). -/
def on_event (s : State) (e : GameEvent) (myId : String) (others : List String) :
    State :=
  if e.event_type = .BOT_CHAT then s
  else
    let s1 := if e.event_type = .CARDS_PEEKED ∧ e.player_id = some myId then
        { s with known_top_cards := some (e.card_types.getD []) }
      else s
    let s2 := if e.event_type = .DECK_SHUFFLED ∨ e.event_type = .EXPLODING_KITTEN_INSERTED then
        { s1 with known_top_cards := none }
      else s1
    let s3 := if e.event_type = .CARD_DRAWN ∧ topTruthy s2.known_top_cards then
        { s2 with known_top_cards := drawPopAaron s2.known_top_cards }
      else s2
    let s4 := if e.event_type = .EXPLODING_KITTEN_DRAWN ∧ e.player_id ≠ some myId then
        { s3 with first_ek_seen_from_other := true }
      else s3
    let s5 := if e.event_type = .PLAYER_ELIMINATED then
        { s4 with kittens_removed := max 0 (s4.kittens_removed + 1) }
      else s4
    if e.event_type = .CARD_PLAYED then
      let ct := e.card_type.getD ""
      let s6 := if pidObserved e.player_id myId others then
          { s5 with
            opponent_card_history := historyAppend s5.opponent_card_history (e.player_id.getD "") ct,
            opponent_card_counts := countsInc s5.opponent_card_counts (e.player_id.getD "") ct }
        else s5
      if ct == DEFUSE then { s6 with defuses_seen := s6.defuses_seen + 1 } else s6
    else s5

end Aaron

namespace Mastermind

/-- The mutable fields of `MastermindBot` that `on_event` touches. -/
structure State where
  first_ek_seen : Bool
  kittens_removed : Nat
  defuses_used : Nat
  known_top_cards : Option (List String)
  deck_shuffled : Bool
  just_peeked : Bool
  opponent_card_history : List (String × List String)
  opponent_card_counts : List (String × List (String × Nat))
  opponent_defense_prob : List (String × ℚ)
  opponent_nope_prob : List (String × ℚ)
  opponent_defuses_used : List String
  opponent_last_seen_hand_size : List (String × Nat)
deriving DecidableEq

/-- `MastermindBot.on_event` of mastermind_bot.py; the view arguments are
the fields it reads (`view.my_id`, `view.other_players`,
`view.other_player_card_counts`). -/
def on_event (s : State) (e : GameEvent) (myId : String) (others : List String)
    (otherCounts : List (String × Nat)) : State :=
  if e.event_type = .BOT_CHAT then s
  else
    let s1 := if e.event_type = .CARDS_PEEKED ∧ e.player_id = some myId then
        { s with known_top_cards := some (e.card_types.getD []), just_peeked := true }
      else s
    let s2 := if e.event_type = .DECK_SHUFFLED ∨ e.event_type = .EXPLODING_KITTEN_INSERTED then
        { s1 with known_top_cards := none, deck_shuffled := true }
      else s1
    let s3 := if e.event_type = .CARD_DRAWN ∧ topTruthy s2.known_top_cards then
        { s2 with known_top_cards := drawPopMM s2.known_top_cards, just_peeked := false }
      else s2
    let s4 := if e.event_type = .EXPLODING_KITTEN_DRAWN ∧ s3.first_ek_seen = false then
        { s3 with first_ek_seen := true, deck_shuffled := false }
      else s3
    let s5 := if e.event_type = .PLAYER_ELIMINATED then
        { s4 with kittens_removed := s4.kittens_removed + 1, deck_shuffled := true }
      else s4
    let s6 := if e.event_type = .CARD_PLAYED ∧ pidObserved e.player_id myId others then
        let pid := e.player_id.getD ""
        let ct := e.card_type.getD ""
        let newCounts := countsInc s5.opponent_card_counts pid ct
        let s6a := { s5 with
          opponent_card_history := historyAppend s5.opponent_card_history pid ct,
          opponent_card_counts := newCounts }
        match update_opponent_model (countsGet newCounts pid) with
        | some dn =>
          { s6a with
            opponent_defense_prob := assocSet s6a.opponent_defense_prob pid dn.1,
            opponent_nope_prob := assocSet s6a.opponent_nope_prob pid dn.2 }
        | none => s6a
      else s5
    let s7 := if e.event_type = .DEFUSE_USED then
        match e.player_id with
        | some p =>
          if p ≠ "" then
            let s7a := { s6 with
              opponent_defuses_used :=
                if s6.opponent_defuses_used.contains p then s6.opponent_defuses_used
                else s6.opponent_defuses_used ++ [p] }
            if p = myId then { s7a with defuses_used := s7a.defuses_used + 1 } else s7a
          else s6
        | none => s6
      else s6
    if e.event_type = .CARD_PLAYED ∨ e.event_type = .CARD_DRAWN then
      match e.player_id with
      | some p =>
        if p ≠ "" ∧ p ∈ others then
          let card_count := lookupCount otherCounts p
          if 0 < card_count then
            { s7 with opponent_last_seen_hand_size := assocSet s7.opponent_last_seen_hand_size p card_count }
          else s7
        else s7
      | none => s7
    else s7

end Mastermind

namespace TFT

/-- The mutable fields of `TFTBot` that `on_event` touches (the chat-phrase
lists are omitted: chatting happens through `view.say` and changes no
state; likewise the `random.random()` draws that only gate chat). -/
structure State where
  first_ek_drawn : Bool
  deck_shuffled : Bool
  num_players : Nat
  num_eks_remaining : Nat
  opponent_card_history : List (String × List String)
  last_peeked_cards : List String
  ek_on_top : Bool
deriving DecidableEq

/-- The `ek_on_top` decision of tft_bot.py's CARDS_PEEKED handler: set when
the hazard heads the revealed cards, or (conservatively) when it is deeper
in the peek and the current probability estimate is at least 0.40;
otherwise the previous flag survives. -/
def peekEkOnTop (prev : Bool) (numPlayers : Nat) (v : BotView)
    (card_types : List String) : Bool :=
  if card_types ≠ [] ∧ EXPLODING ∈ card_types then
    if card_types.headD "" = EXPLODING then true
    else if (2/5 : ℚ) ≤ calculate_ek_probability numPlayers v then true
    else prev
  else prev

/-- `TFTBot.on_event` of tft_bot.py. -/
def on_event (s : State) (e : GameEvent) (v : BotView) : State :=
  if e.event_type = .BOT_CHAT then s
  else
    let s1 := if e.event_type = .EXPLODING_KITTEN_DRAWN ∧ s.first_ek_drawn = false then
        { s with first_ek_drawn := true, deck_shuffled := false }
      else s
    let s2 := if e.event_type = .DECK_SHUFFLED then
        { s1 with deck_shuffled := true, ek_on_top := false }
      else s1
    let s3 := if e.event_type = .CARDS_PEEKED ∧ e.player_id = some v.myId then
        let card_types := e.card_types.getD []
        { s2 with last_peeked_cards := card_types,
                  ek_on_top := peekEkOnTop s2.ek_on_top s2.num_players v card_types }
      else s2
    let s4 := if e.event_type = .PLAYER_ELIMINATED then
        { s3 with deck_shuffled := true }
      else s3
    let s5 := if e.event_type = .CARD_PLAYED then
        match e.player_id with
        | some p =>
          if p ≠ v.myId ∧ p ∈ v.otherPlayers then
            { s4 with opponent_card_history :=
                historyAppend s4.opponent_card_history p (e.card_type.getD "") }
          else s4
        | none => s4
      else s4
    if e.event_type = .GAME_START then
      { s5 with num_players := v.otherPlayers.length + 1,
                num_eks_remaining := v.otherPlayers.length + 1 - 1 }
    else s5

end TFT

/-! ## Reaction evaluators

The stochastic bluff branch calls `random.random()`; the draw is passed as
an explicit parameter `r`, so every theorem quantifies over all outcomes. -/

namespace MyBot

/-- `MyBot.react` of my_bot.py. -/
def react (v : BotView) (e : GameEvent) (r : ℚ) : Option Action :=
  let nope_cards := v.get_cards_of_type NOPE
  if nope_cards = [] then none
  else if e.event_type = .CARD_PLAYED ∧ e.card_type.getD "" = ATTACK ∧
      e.target_player_id = some v.myId then
    some (.PlayCard (nope_cards.headD default) none)
  else if e.event_type = .CARD_PLAYED ∧ e.card_type.getD "" = FAVOR ∧
      e.target_player_id = some v.myId then
    some (.PlayCard (nope_cards.headD default) none)
  else if 1 < nope_cards.length ∧ r < 3/10 then
    some (.PlayCard (nope_cards.headD default) none)
  else none

end MyBot

namespace Aaron

/-- `MyBot.react` of aaron_bot.py (its converted
`str(data.get("target_player_id"))` is the identity on the string ids the
engine sends). -/
def react (v : BotView) (e : GameEvent) (r : ℚ) : Option Action :=
  let nope_cards := v.get_cards_of_type NOPE
  if nope_cards = [] then none
  else if e.event_type = .CARD_PLAYED ∧ e.card_type.getD "" = ATTACK ∧
      e.target_player_id = some v.myId then
    some (.PlayCard (nope_cards.headD default) none)
  else if e.event_type = .CARD_PLAYED ∧ e.card_type.getD "" = FAVOR ∧
      e.target_player_id = some v.myId then
    some (.PlayCard (nope_cards.headD default) none)
  else if e.event_type = .FAVOR_REQUESTED ∧ e.target = some v.myId then
    some (.PlayCard (nope_cards.headD default) none)
  else if 1 < nope_cards.length ∧ r < 1/10 then
    some (.PlayCard (nope_cards.headD default) none)
  else none

end Aaron

/-! ## MyBot's turn policy (my_bot.py `take_turn`) -/

namespace MyBot

/-- The target used by every targeted gate of my_bot.py:
`max(view.other_players, key=lambda pid: view.other_player_card_counts.get(pid, 0))`. -/
def biggestTarget (v : BotView) : Option String :=
  pyMaxBy (fun pid => lookupCount v.otherPlayerCardCounts pid) v.otherPlayers

/-- The combo block of `MyBot.take_turn`: prefer the first three-of-a-kind,
else fall back to `combos[0]` when it is a pair or triple; `none` means the
block falls through to the favor gate. -/
def combo_gate (v : BotView) : Option Action :=
  let combos := find_possible_combos v.myHand
  if combos ≠ [] ∧ v.otherPlayers ≠ [] then
    match combos.find? (fun p => p.1 == "three_of_a_kind") with
    | some pr => some (.PlayCombo pr.2 (biggestTarget v))
    | none =>
      let first := combos.headD ("", [])
      if first.1 = "two_of_a_kind" ∨ first.1 = "three_of_a_kind" then
        some (.PlayCombo first.2 (biggestTarget v))
      else none
  else none

/-- The favor gate of `MyBot.take_turn`. -/
def favor_gate (v : BotView) : Option Action :=
  if v.myHand.length < 3 ∧ v.otherPlayers ≠ [] then
    match v.get_cards_of_type FAVOR with
    | f :: _ => some (.PlayCard f (biggestTarget v))
    | [] => none
  else none

/-- `MyBot.take_turn` of my_bot.py: the See-the-Future gate, then the attack
gate, then the skip gate, then the combo block, then the favor gate, then
the default draw. -/
def take_turn (v : BotView) : Action :=
  let see_future_cards := v.get_cards_of_type STF
  if see_future_cards ≠ [] ∧ 0 < v.drawPileCount then
    .PlayCard (see_future_cards.headD default) none
  else
    let attackGate : Option Action :=
      if 1 < v.myTurnsRemaining then
        let attack_cards := v.get_cards_of_type ATTACK
        if attack_cards ≠ [] ∧ v.otherPlayers ≠ [] then
          some (.PlayCard (attack_cards.headD default) (biggestTarget v))
        else none
      else none
    match attackGate with
    | some a => a
    | none =>
      let skipGate : Option Action :=
        if 1 < v.myTurnsRemaining then
          match v.get_cards_of_type SKIP with
          | sk :: _ => some (.PlayCard sk none)
          | [] => none
        else none
      match skipGate with
      | some a => a
      | none =>
        match combo_gate v with
        | some a => a
        | none =>
          match favor_gate v with
          | some a => a
          | none => .Draw

end MyBot

/-! ## Disposal policies (`choose_defuse_position`) -/

/-- Python `random.randint(lo, hi)` (inclusive bounds), modelled with an
arbitrary draw `r`: for `lo ≤ hi` every value of `[lo, hi]` is reachable and
no value outside it. -/
def randintN (lo hi : Nat) (r : Nat) : Nat :=
  lo + r % (hi + 1 - lo)

namespace MyBot

/-- `MyBot.choose_defuse_position` of my_bot.py (deterministic). -/
def choose_defuse_position (draw_pile_size : Nat) : Nat :=
  if 4 < draw_pile_size then max 1 (draw_pile_size / 4)
  else max 1 (draw_pile_size - 1)

end MyBot

namespace Aaron

/-- `MyBot.choose_defuse_position` of aaron_bot.py. -/
def choose_defuse_position (draw_pile_size : Nat) (r : Nat) : Nat :=
  if draw_pile_size ≤ 1 then 0
  else randintN 1 (max 1 (draw_pile_size - 1)) r

end Aaron

namespace TFT

/-- `TFTBot.choose_defuse_position` of tft_bot.py
(`int(draw_pile_size * 0.75)` is exactly `3 * draw_pile_size / 4` because
0.75 is a dyadic rational). -/
def choose_defuse_position (draw_pile_size : Nat) (r : Nat) : Nat :=
  if draw_pile_size ≤ 1 then 0
  else if draw_pile_size = 2 then 1
  else if draw_pile_size = 3 then randintN 1 2 r
  else if draw_pile_size ≤ 5 then randintN 1 (min 3 (draw_pile_size - 1)) r
  else if draw_pile_size ≤ 7 then randintN 2 (draw_pile_size - 1) r
  else randintN 4 (max 5 (3 * draw_pile_size / 4)) r

end TFT

/-! ## Spec-side definitions used for refinement comparisons -/

/-- The defuse cushion factor `max(0.3, 1 - 0.25 * k)` applied by
mastermind_bot.py's `_calculate_ek_risk` when `k` defuses are held. -/
def mmFactor (k : Nat) : ℚ := max (3/10) (1 - (k : ℚ) * (1/4))

/-- The same view with every neutralizer (defuse) card removed from the
hand: the cushion-free configuration named by the spec. -/
def stripDefuses (v : BotView) : BotView :=
  { v with myHand := v.myHand.filter (fun c => !(c.card_type == DEFUSE)) }

/-- The spec's defensive-play count (§4.2, without the neutralizer):
skip + redirect-turn + reshuffle plays in the observed history. -/
def specDefensiveCount (plays : List String) : Nat :=
  plays.count SKIP + plays.count ATTACK + plays.count SHUFFLE

/-! ## Concrete sample inputs used by the theorems below -/

/-- A 4-player view with a 20-card pile and `k` defuse cards in hand. -/
def c8View (k : Nat) : BotView :=
  { myId := "me",
    myHand := List.replicate k ⟨DEFUSE, false⟩,
    drawPileCount := 20,
    discardPile := [],
    turnOrder := ["me", "a", "b", "c"],
    myTurnsRemaining := 1,
    otherPlayers := ["a", "b", "c"],
    otherPlayerCardCounts := [] }

/-- A redirect-turn (attack) card played with the agent as target. -/
def attackSelfEvent : GameEvent :=
  { event_type := .CARD_PLAYED,
    player_id := some "opp",
    card_types := none,
    card_type := some ATTACK,
    target_player_id := some "me",
    target := none }

/-- A view whose hand holds one veto (Nope) card. -/
def nopeView : BotView :=
  { myId := "me",
    myHand := [⟨NOPE, false⟩, ⟨"TacocatCard", true⟩],
    drawPileCount := 8,
    discardPile := [],
    turnOrder := ["me", "opp"],
    myTurnsRemaining := 1,
    otherPlayers := ["opp"],
    otherPlayerCardCounts := [("opp", 2)] }

/-- `nopeView` without the veto card. -/
def noNopeView : BotView :=
  { nopeView with myHand := [⟨"TacocatCard", true⟩] }

/-- A hand with three eligible cards of one kind and two of another. -/
def comboHandA : List Card :=
  [⟨"TacocatCard", true⟩, ⟨"BeardCatCard", true⟩, ⟨"TacocatCard", true⟩,
   ⟨"TacocatCard", true⟩, ⟨"BeardCatCard", true⟩]

/-- A hand with five distinct eligible kinds, one card each. -/
def comboHandB : List Card :=
  [⟨"TacocatCard", true⟩, ⟨"BeardCatCard", true⟩, ⟨"RainbowCatCard", true⟩,
   ⟨"PotatoCatCard", true⟩, ⟨"MelonCatCard", true⟩]

/-- A view in which my_bot holds a See-the-Future card plus three eligible
cards of one kind, with a living opponent holding cards. -/
def c3View : BotView :=
  { myId := "me",
    myHand := [⟨STF, false⟩, ⟨"TacocatCard", true⟩, ⟨"TacocatCard", true⟩,
      ⟨"TacocatCard", true⟩],
    drawPileCount := 10,
    discardPile := [],
    turnOrder := ["me", "opp"],
    myTurnsRemaining := 1,
    otherPlayers := ["opp"],
    otherPlayerCardCounts := [("opp", 5)] }

/-- A view for the C3 amended witness: no See-the-Future card, one turn
remaining, three eligible Tacocats, one opponent. -/
def c3AmView : BotView :=
  { myId := "me",
    myHand := [⟨"TacocatCard", true⟩, ⟨"TacocatCard", true⟩, ⟨"TacocatCard", true⟩,
      ⟨NOPE, false⟩],
    drawPileCount := 10,
    discardPile := [],
    turnOrder := ["me", "opp"],
    myTurnsRemaining := 1,
    otherPlayers := ["opp"],
    otherPlayerCardCounts := [("opp", 2)] }

def sampleAaronState : Aaron.State :=
  { first_ek_seen_from_other := false,
    kittens_removed := 0,
    known_top_cards := some [SKIP, EXPLODING],
    opponent_card_history := [("opp", [SKIP])],
    opponent_card_counts := [("opp", [(SKIP, 1)])],
    defuses_seen := 0 }

def sampleMMState : Mastermind.State :=
  { first_ek_seen := false,
    kittens_removed := 0,
    defuses_used := 0,
    known_top_cards := some [EXPLODING],
    deck_shuffled := false,
    just_peeked := true,
    opponent_card_history := [],
    opponent_card_counts := [],
    opponent_defense_prob := [],
    opponent_nope_prob := [],
    opponent_defuses_used := [],
    opponent_last_seen_hand_size := [] }

def shuffleEvent : GameEvent :=
  { event_type := .DECK_SHUFFLED,
    player_id := some "opp",
    card_types := none,
    card_type := none,
    target_player_id := none,
    target := none }

def sampleTFTState : TFT.State :=
  { first_ek_drawn := true,
    deck_shuffled := false,
    num_players := 3,
    num_eks_remaining := 2,
    opponent_card_history := [],
    last_peeked_cards := [SKIP],
    ek_on_top := false }

def c6View : BotView :=
  { myId := "me",
    myHand := [],
    drawPileCount := 12,
    discardPile := [],
    turnOrder := ["me", "opp"],
    myTurnsRemaining := 1,
    otherPlayers := ["opp"],
    otherPlayerCardCounts := [("opp", 4)] }

def peekOtherEvent : GameEvent :=
  { event_type := .CARDS_PEEKED,
    player_id := some "opp",
    card_types := some [DEFUSE, SKIP],
    card_type := none,
    target_player_id := none,
    target := none }

def peekSelfEvent : GameEvent :=
  { event_type := .CARDS_PEEKED,
    player_id := some "me",
    card_types := some [SKIP, EXPLODING, SKIP],
    card_type := none,
    target_player_id := none,
    target := none }

/-- A concrete 4-player view with 20 cards in the pile and an empty hand. -/
def c1View : BotView :=
  { myId := "me",
    myHand := [],
    drawPileCount := 20,
    discardPile := [],
    turnOrder := ["me", "a", "b", "c"],
    myTurnsRemaining := 1,
    otherPlayers := ["a", "b", "c"],
    otherPlayerCardCounts := [("a", 4), ("b", 4), ("c", 4)] }

/-- `c1View` with an empty draw pile. -/
def zeroPileView : BotView :=
  { c1View with drawPileCount := 0 }

/-! ## Lemmas about the combo detector -/

lemma mem_firstOccKinds {k : String} {l : List Card} :
    k ∈ firstOccKinds l ↔ ∃ c ∈ l, c.card_type = k := by
  induction l with
  | nil => simp [firstOccKinds]
  | cons c rest ih =>
    simp only [firstOccKinds, List.mem_cons, List.mem_filter, bne_iff_ne, ne_eq,
      decide_eq_true_eq]
    constructor
    · rintro (rfl | ⟨h, _⟩)
      · exact ⟨c, Or.inl rfl, rfl⟩
      · obtain ⟨c', hc', hty⟩ := ih.mp h
        exact ⟨c', Or.inr hc', hty⟩
    · rintro ⟨c', hc' | hc', hty⟩
      · subst hc'
        exact Or.inl hty.symm
      · by_cases hk : k = c.card_type
        · exact Or.inl hk
        · exact Or.inr ⟨ih.mpr ⟨c', hc', hty⟩, hk⟩

lemma nodup_firstOccKinds : ∀ l : List Card, (firstOccKinds l).Nodup
  | [] => List.nodup_nil
  | c :: rest => by
    simp only [firstOccKinds]
    refine List.nodup_cons.mpr ⟨?_, (nodup_firstOccKinds rest).filter _⟩
    intro hmem
    have h := (List.mem_filter.mp hmem).2
    simp at h

lemma firstOccKinds_all_eq {X : String} : ∀ {l : List Card},
    (∀ c ∈ l, c.card_type = X) → l ≠ [] → firstOccKinds l = [X]
  | [], _, hne => absurd rfl hne
  | c :: rest, hall, _ => by
    have hc : c.card_type = X := hall c (List.mem_cons_self c rest)
    by_cases hrest : rest = []
    · subst hrest
      simp [firstOccKinds, hc]
    · have ih := @firstOccKinds_all_eq X rest
        (fun c' hc' => hall c' (List.mem_cons_of_mem _ hc')) hrest
      simp [firstOccKinds, ih, hc]

lemma mem_eligOf {hand : List Card} {c : Card} {X : String} :
    c ∈ eligOf hand X ↔ c ∈ eligibleCards hand ∧ c.card_type = X := by
  simp [eligOf, List.mem_filter]

lemma eligOf_mem_firstOcc {hand : List Card} {X : String}
    (h : eligOf hand X ≠ []) : X ∈ firstOccKinds (eligibleCards hand) := by
  obtain ⟨c, hc⟩ := List.exists_mem_of_ne_nil _ h
  obtain ⟨hcE, hty⟩ := mem_eligOf.mp hc
  exact mem_firstOccKinds.mpr ⟨c, hcE, hty⟩

lemma pt_mem_iff {cards : List Card} {q : String × List Card} :
    q ∈ (groupByType cards).filterMap pairTripleStep ↔
      ∃ k ∈ firstOccKinds cards,
        pairTripleStep (k, cards.filter (fun c => c.card_type == k)) = some q := by
  simp [groupByType, List.mem_filterMap, List.mem_map]

lemma pairTripleStep_tag {g q : String × List Card} (h : pairTripleStep g = some q) :
    q.1 = "three_of_a_kind" ∨ q.1 = "two_of_a_kind" := by
  unfold pairTripleStep at h
  split_ifs at h <;> cases h <;> simp

lemma pairTripleStep_pair_inv {k : String} {g l : List Card}
    (h : pairTripleStep (k, g) = some ("two_of_a_kind", l)) :
    l = g.take 2 ∧ g.length < 3 := by
  unfold pairTripleStep at h
  split_ifs at h with h3 h2
  · simp at h
  · simp only [Option.some.injEq, Prod.mk.injEq] at h
    have h3' : ¬ 3 ≤ g.length := by simpa using h3
    exact ⟨h.2.symm, by omega⟩

lemma pairTripleStep_three {k : String} {g : List Card} (h : 3 ≤ g.length) :
    pairTripleStep (k, g) = some ("three_of_a_kind", g.take 3) := by
  unfold pairTripleStep
  simp [h]

lemma pairTripleStep_two {k : String} {g : List Card} (h : g.length = 2) :
    pairTripleStep (k, g) = some ("two_of_a_kind", g.take 2) := by
  unfold pairTripleStep
  rw [if_neg (by simp; omega), if_pos (by simp; omega)]

lemma find_possible_combos_eq (hand : List Card) (h : eligibleCards hand ≠ []) :
    find_possible_combos hand =
      if 5 ≤ (groupByType (eligibleCards hand)).length then
        (groupByType (eligibleCards hand)).filterMap pairTripleStep ++
          [("five_different",
            ((groupByType (eligibleCards hand)).take 5).map (fun p => p.2.headD default))]
      else (groupByType (eligibleCards hand)).filterMap pairTripleStep := by
  unfold find_possible_combos
  simp [h]

lemma mem_find_possible_combos_of_pt {hand : List Card} {q : String × List Card}
    (h : eligibleCards hand ≠ [])
    (hq : q ∈ (groupByType (eligibleCards hand)).filterMap pairTripleStep) :
    q ∈ find_possible_combos hand := by
  rw [find_possible_combos_eq hand h]
  split
  · exact List.mem_append_left _ hq
  · exact hq

lemma find_possible_combos_cases {hand : List Card} {q : String × List Card}
    (hq : q ∈ find_possible_combos hand) :
    q ∈ (groupByType (eligibleCards hand)).filterMap pairTripleStep ∨
      (5 ≤ (groupByType (eligibleCards hand)).length ∧
        q = ("five_different",
          ((groupByType (eligibleCards hand)).take 5).map (fun p => p.2.headD default))) := by
  by_cases h : eligibleCards hand = []
  · rw [show find_possible_combos hand = [] from by unfold find_possible_combos; simp [h]] at hq
    cases hq
  · rw [find_possible_combos_eq hand h] at hq
    by_cases h5 : 5 ≤ (groupByType (eligibleCards hand)).length
    · rw [if_pos h5] at hq
      rcases List.mem_append.mp hq with h1 | h1
      · exact Or.inl h1
      · exact Or.inr ⟨h5, List.mem_singleton.mp h1⟩
    · rw [if_neg h5] at hq
      exact Or.inl hq

lemma filter_type_head {cards : List Card} {k : String}
    (h : ∃ c ∈ cards, c.card_type = k) :
    ((cards.filter (fun c => c.card_type == k)).headD default) ∈
        cards.filter (fun c => c.card_type == k) ∧
      ((cards.filter (fun c => c.card_type == k)).headD default).card_type = k := by
  obtain ⟨c, hc, hty⟩ := h
  have hmem : c ∈ cards.filter (fun c => c.card_type == k) :=
    List.mem_filter.mpr ⟨hc, by simp [hty]⟩
  have hne : cards.filter (fun c => c.card_type == k) ≠ [] :=
    List.ne_nil_of_mem hmem
  obtain ⟨f, rest, hf⟩ := List.exists_cons_of_ne_nil hne
  have hfmem : f ∈ cards.filter (fun c => c.card_type == k) := by
    rw [hf]; exact List.mem_cons_self f rest
  have hfty : f.card_type = k := by
    have := (List.mem_filter.mp hfmem).2
    simpa using this
  rw [hf]
  exact ⟨List.mem_cons_self f rest, hfty⟩

/-! ## C4: the combo detector -/

/-- **C4.** For every hand the combo detector yields, per combo-eligible
kind: one Triple of the kind's first three eligible cards when its eligible
count is at least 3, and then no Pair of that kind in the same call; one
Pair of exactly the two cards when the count is exactly 2; and when five or
more distinct eligible kinds are present, exactly one `five_different`
combo whose cards are one card of each of the first five kinds (in
deterministic first-occurrence order).  A Triple for one kind and a Pair for
another may appear in the same call because the first two conjuncts hold
simultaneously for all kinds. -/
theorem c4_combo_detector (hand : List Card) :
    (∀ X : String, 3 ≤ (eligOf hand X).length →
      ("three_of_a_kind", (eligOf hand X).take 3) ∈ find_possible_combos hand ∧
        ∀ l, ("two_of_a_kind", l) ∈ find_possible_combos hand →
          ∀ c ∈ l, c.card_type ≠ X) ∧
    (∀ X : String, (eligOf hand X).length = 2 →
      ("two_of_a_kind", eligOf hand X) ∈ find_possible_combos hand) ∧
    (5 ≤ (firstOccKinds (eligibleCards hand)).length →
      (find_possible_combos hand).countP (fun p => p.1 == "five_different") = 1 ∧
        ∀ l, ("five_different", l) ∈ find_possible_combos hand →
          l.map (fun c => c.card_type) = (firstOccKinds (eligibleCards hand)).take 5 ∧
          (l.map (fun c => c.card_type)).Nodup ∧ l.length = 5 ∧
          ∀ c ∈ l, c ∈ hand ∧ c.can_combo = true) := by
  refine ⟨?_, ?_, ?_⟩
  · intro X h3
    have hXne : eligOf hand X ≠ [] := by
      intro hnil
      rw [hnil] at h3
      simp at h3
    have hE : eligibleCards hand ≠ [] := by
      obtain ⟨c, hc⟩ := List.exists_mem_of_ne_nil _ hXne
      exact List.ne_nil_of_mem (mem_eligOf.mp hc).1
    have hXk : X ∈ firstOccKinds (eligibleCards hand) := eligOf_mem_firstOcc hXne
    have hstep : pairTripleStep (X, (eligibleCards hand).filter (fun c => c.card_type == X)) =
        some ("three_of_a_kind", (eligOf hand X).take 3) := pairTripleStep_three h3
    refine ⟨mem_find_possible_combos_of_pt hE (pt_mem_iff.mpr ⟨X, hXk, hstep⟩), ?_⟩
    intro l hl c hc hty
    rcases find_possible_combos_cases hl with hpt | ⟨_, habs⟩
    · obtain ⟨k, hk, hstep2⟩ := pt_mem_iff.mp hpt
      obtain ⟨hl2, hlen⟩ := pairTripleStep_pair_inv hstep2
      have hcfil : c ∈ (eligibleCards hand).filter (fun c => c.card_type == k) := by
        refine List.take_subset 2 _ ?_
        rw [← hl2]
        exact hc
      have hck : c.card_type = k := by
        have := (List.mem_filter.mp hcfil).2
        simpa using this
      have hkX : k = X := hck.symm.trans hty
      rw [hkX] at hlen
      have : (eligOf hand X).length < 3 := hlen
      omega
    · simp at habs
  · intro X h2
    have hXne : eligOf hand X ≠ [] := by
      intro hnil
      rw [hnil] at h2
      simp at h2
    have hE : eligibleCards hand ≠ [] := by
      obtain ⟨c, hc⟩ := List.exists_mem_of_ne_nil _ hXne
      exact List.ne_nil_of_mem (mem_eligOf.mp hc).1
    have hXk : X ∈ firstOccKinds (eligibleCards hand) := eligOf_mem_firstOcc hXne
    have htake : (eligOf hand X).take 2 = eligOf hand X := by
      rw [← h2, List.take_length]
    have hstep : pairTripleStep (X, (eligibleCards hand).filter (fun c => c.card_type == X)) =
        some ("two_of_a_kind", eligOf hand X) := by
      rw [show ((eligibleCards hand).filter (fun c => c.card_type == X)) = eligOf hand X from rfl,
        pairTripleStep_two h2, htake]
    exact mem_find_possible_combos_of_pt hE (pt_mem_iff.mpr ⟨X, hXk, hstep⟩)
  · intro h5
    have hE : eligibleCards hand ≠ [] := by
      intro hnil
      rw [hnil] at h5
      simp [firstOccKinds] at h5
    have hlen5 : 5 ≤ (groupByType (eligibleCards hand)).length := by
      rw [groupByType, List.length_map]
      exact h5
    have hpt0 : ((groupByType (eligibleCards hand)).filterMap pairTripleStep).countP
        (fun p => p.1 == "five_different") = 0 := by
      rw [List.countP_eq_zero]
      intro q hq
      obtain ⟨k, hk, hstep⟩ := pt_mem_iff.mp hq
      rcases pairTripleStep_tag hstep with ht | ht <;> simp [ht]
    constructor
    · rw [find_possible_combos_eq hand hE, if_pos hlen5, List.countP_append, hpt0]
      simp
    · intro l hl
      rcases find_possible_combos_cases hl with hpt | ⟨_, hfive⟩
      · obtain ⟨k, hk, hstep⟩ := pt_mem_iff.mp hpt
        rcases pairTripleStep_tag hstep with ht | ht <;> simp at ht
      · have hl2 : l = ((groupByType (eligibleCards hand)).take 5).map
            (fun p => p.2.headD default) := by
          simpa using congrArg Prod.snd hfive
        have hmt : (groupByType (eligibleCards hand)).take 5 =
            ((firstOccKinds (eligibleCards hand)).take 5).map
              (fun k => (k, (eligibleCards hand).filter (fun c => c.card_type == k))) := by
          rw [groupByType, ← List.map_take]
        have hl3 : l = ((firstOccKinds (eligibleCards hand)).take 5).map
            (fun k => ((eligibleCards hand).filter (fun c => c.card_type == k)).headD default) := by
          rw [hl2, hmt, List.map_map]
          rfl
        have hhead : ∀ k ∈ (firstOccKinds (eligibleCards hand)).take 5,
            (((eligibleCards hand).filter (fun c => c.card_type == k)).headD default) ∈
                (eligibleCards hand).filter (fun c => c.card_type == k) ∧
              (((eligibleCards hand).filter (fun c => c.card_type == k)).headD default).card_type
                = k := by
          intro k hk
          exact filter_type_head (mem_firstOccKinds.mp (List.take_subset _ _ hk))
        have hmapty : l.map (fun c => c.card_type) =
            (firstOccKinds (eligibleCards hand)).take 5 := by
          rw [hl3, List.map_map]
          have : ∀ k ∈ (firstOccKinds (eligibleCards hand)).take 5,
              ((fun c => c.card_type) ∘ fun k =>
                ((eligibleCards hand).filter (fun c => c.card_type == k)).headD default) k
                = id k := by
            intro k hk
            exact (hhead k hk).2
          rw [List.map_congr_left this, List.map_id]
        refine ⟨hmapty, ?_, ?_, ?_⟩
        · rw [hmapty]
          exact (List.take_sublist _ _).nodup (nodup_firstOccKinds _)
        · have := congrArg List.length hmapty
          rw [List.length_map, List.length_take] at this
          omega
        · intro c hcmem
          rw [hl3] at hcmem
          obtain ⟨k, hk, rfl⟩ := List.mem_map.mp hcmem
          have hmemfil := (hhead k hk).1
          have h1 := List.mem_filter.mp hmemfil
          have h2 := List.mem_filter.mp h1.1
          exact ⟨h2.1, h2.2⟩

/-- Witness for C4 at concrete hands: a Triple and a Pair coexist in one
call, and a hand of five distinct eligible kinds yields exactly one
`five_different` combo. -/
theorem c4_combo_detector_witness :
    ("three_of_a_kind", (eligOf comboHandA "TacocatCard").take 3) ∈
        find_possible_combos comboHandA ∧
      ("two_of_a_kind", eligOf comboHandA "BeardCatCard") ∈
        find_possible_combos comboHandA ∧
      (find_possible_combos comboHandB).countP (fun p => p.1 == "five_different") = 1 :=
  ⟨((c4_combo_detector comboHandA).1 "TacocatCard" (by decide)).1,
   (c4_combo_detector comboHandA).2.1 "BeardCatCard" (by decide),
   ((c4_combo_detector comboHandB).2.2 (by decide)).1⟩

/-! ## C3: position of the combo gate in `take_turn` -/

/-- **C3 counterexample.** On `c3View` the hand contains three
combo-eligible cards of one kind and a legal living target exists, yet
`MyBot.take_turn` returns the See-the-Future play, not a `PlayCombo`: the
combo gate of my_bot.py is not first. -/
theorem c3_counterexample :
    MyBot.take_turn c3View = Action.PlayCard ⟨STF, false⟩ none ∧
      (MyBot.take_turn c3View).isPlayCombo = false := by
  decide

/-- **C3 amended.** In my_bot.py the combo gate follows the See-the-Future,
attack and skip gates.  When none of those fires (no See-the-Future card or
an empty draw pile, and at most one turn remaining), the hand's
combo-eligible cards are three or more of a single kind X, and a living
opponent exists, `take_turn` returns a `PlayCombo` of exactly the first
three X cards, targeting the opponent with the most cards. -/
theorem c3_amended (v : BotView) (X : String)
    (hstf : v.get_cards_of_type STF = [] ∨ v.drawPileCount = 0)
    (hturn : v.myTurnsRemaining ≤ 1)
    (hopp : v.otherPlayers ≠ [])
    (hX : ∀ c ∈ eligibleCards v.myHand, c.card_type = X)
    (h3 : 3 ≤ (eligibleCards v.myHand).length) :
    MyBot.take_turn v =
      Action.PlayCombo ((eligibleCards v.myHand).take 3) (MyBot.biggestTarget v) := by
  have hEne : eligibleCards v.myHand ≠ [] := by
    intro h0
    rw [h0] at h3
    simp at h3
  have hkinds : firstOccKinds (eligibleCards v.myHand) = [X] := firstOccKinds_all_eq hX hEne
  have hfilter : (eligibleCards v.myHand).filter (fun c => c.card_type == X)
      = eligibleCards v.myHand := by
    apply List.filter_eq_self.mpr
    intro c hc
    simp [hX c hc]
  have hcombos : find_possible_combos v.myHand =
      [("three_of_a_kind", (eligibleCards v.myHand).take 3)] := by
    rw [find_possible_combos_eq _ hEne, groupByType, hkinds]
    simp only [List.map_cons, List.map_nil, List.length_cons, List.length_nil]
    rw [if_neg (by omega), hfilter]
    simp [List.filterMap_cons, pairTripleStep_three h3]
  have hgate2 : MyBot.combo_gate v =
      some (.PlayCombo ((eligibleCards v.myHand).take 3) (MyBot.biggestTarget v)) := by
    unfold MyBot.combo_gate
    rw [hcombos]
    rw [if_pos ⟨by simp, hopp⟩]
    simp [List.find?]
  have hgate1 : ¬ (v.get_cards_of_type STF ≠ [] ∧ 0 < v.drawPileCount) := by
    rcases hstf with h | h
    · simp [h]
    · simp [h]
  have h1 : ¬ (1 < v.myTurnsRemaining) := by omega
  unfold MyBot.take_turn
  rw [if_neg hgate1]
  simp only [h1, if_false, hgate2]

/-- Witness for the C3 amended theorem at the concrete view `c3AmView`. -/
theorem c3_amended_witness :
    MyBot.take_turn c3AmView =
      Action.PlayCombo ((eligibleCards c3AmView.myHand).take 3) (MyBot.biggestTarget c3AmView) :=
  c3_amended c3AmView "TacocatCard" (Or.inl (by decide)) (by decide) (by decide)
    (by decide) (by decide)

/-! ## C5 and C6: the knowledge trackers -/

/-- **C5.** After the trackers of aaron_bot.py and mastermind_bot.py process
a deck-reshuffled or hazard-inserted event, the known-top-of-deck sequence
is cleared, regardless of its prior content and of the rest of the state. -/
theorem c5_reshuffle_clears (sa : Aaron.State) (sm : Mastermind.State) (e : GameEvent)
    (myId : String) (others : List String) (otherCounts : List (String × Nat))
    (h : e.event_type = .DECK_SHUFFLED ∨ e.event_type = .EXPLODING_KITTEN_INSERTED) :
    (Aaron.on_event sa e myId others).known_top_cards = none ∧
      (Mastermind.on_event sm e myId others otherCounts).known_top_cards = none := by
  rcases h with h | h <;>
    exact ⟨by simp [Aaron.on_event, h, topTruthy],
      by simp [Mastermind.on_event, h, topTruthy]⟩

/-- Witness for C5: a concrete reshuffle event clears both trackers'
non-empty known-top sequences. -/
theorem c5_reshuffle_clears_witness :
    (Aaron.on_event sampleAaronState shuffleEvent "me" ["opp"]).known_top_cards = none ∧
      (Mastermind.on_event sampleMMState shuffleEvent "me" ["opp"]
        [("opp", 3)]).known_top_cards = none :=
  c5_reshuffle_clears sampleAaronState sampleMMState shuffleEvent "me" ["opp"]
    [("opp", 3)] (Or.inl rfl)

/-- **C6.** A cards-peeked event with an acting player other than the agent
leaves the agent's known-top-of-deck knowledge unchanged (aaron_bot.py's
`_known_top_cards`, tft_bot.py's `_last_peeked_cards` and `_ek_on_top`);
only a cards-peeked event addressed to the agent itself replaces it, and
then verbatim with the revealed sequence. -/
theorem c6_peek_frame (sa : Aaron.State) (st : TFT.State) (e : GameEvent)
    (v : BotView) (others : List String)
    (hpk : e.event_type = .CARDS_PEEKED) :
    (e.player_id ≠ some v.myId →
      (Aaron.on_event sa e v.myId others).known_top_cards = sa.known_top_cards ∧
        (TFT.on_event st e v).last_peeked_cards = st.last_peeked_cards ∧
        (TFT.on_event st e v).ek_on_top = st.ek_on_top) ∧
    (e.player_id = some v.myId →
      (Aaron.on_event sa e v.myId others).known_top_cards = some (e.card_types.getD []) ∧
        (TFT.on_event st e v).last_peeked_cards = e.card_types.getD []) := by
  constructor
  · intro hne
    refine ⟨?_, ?_, ?_⟩ <;> simp [Aaron.on_event, TFT.on_event, hpk, hne, topTruthy]
  · intro hid
    constructor
    · simp [Aaron.on_event, hpk, hid, topTruthy]
    · simp [TFT.on_event, hpk, hid]

/-- Witness for C6 at concrete events: an opponent's peek leaves aaron's
known-top sequence untouched, and the agent's own peek replaces it with the
revealed sequence verbatim. -/
theorem c6_peek_frame_witness :
    (Aaron.on_event sampleAaronState peekOtherEvent c6View.myId ["opp"]).known_top_cards
        = sampleAaronState.known_top_cards ∧
      (Aaron.on_event sampleAaronState peekSelfEvent c6View.myId ["opp"]).known_top_cards
        = some (peekSelfEvent.card_types.getD []) :=
  ⟨((c6_peek_frame sampleAaronState sampleTFTState peekOtherEvent c6View ["opp"] rfl).1
      (by decide)).1,
   ((c6_peek_frame sampleAaronState sampleTFTState peekSelfEvent c6View ["opp"] rfl).2
      (by decide)).1⟩

/-! ## C1, C2, C8: the risk estimators -/

lemma one_le_baselineKittens (p k : Nat) : 1 ≤ baselineKittens p k := by
  unfold baselineKittens
  have h : (1 : ℤ) ≤ max 1 ((p : ℤ) - 1 - (k : ℤ)) := le_max_left _ _
  exact_mod_cast h

lemma baselineKittens_nonneg (p k : Nat) : 0 ≤ baselineKittens p k :=
  le_trans (by norm_num) (one_le_baselineKittens p k)

lemma min_one_div_bounds {n d : ℚ} (hn : 0 ≤ n) (hd : 0 ≤ d) :
    0 ≤ min 1 (n / d) ∧ min 1 (n / d) ≤ 1 :=
  ⟨le_min (by norm_num) (div_nonneg hn hd), min_le_left _ _⟩

lemma defuse_scale_bounds {r : ℚ} (h : 0 ≤ r ∧ r ≤ 1) (b : Prop) [Decidable b] :
    0 ≤ (if b then r * (3/5) else r) ∧ (if b then r * (3/5) else r) ≤ 1 := by
  obtain ⟨h0, h1⟩ := h
  split_ifs
  · exact ⟨by positivity, by nlinarith⟩
  · exact ⟨h0, h1⟩

lemma mmFactor_bounds (k : Nat) :
    (3/10 : ℚ) ≤ max (3/10) (1 - (k : ℚ) * (1/4)) ∧
      max (3/10 : ℚ) (1 - (k : ℚ) * (1/4)) ≤ 1 := by
  refine ⟨le_max_left _ _, max_le (by norm_num) ?_⟩
  have h : (0 : ℚ) ≤ (k : ℚ) * (1/4) := by positivity
  linarith

lemma mmCushion_bounds {k : Nat} {r : ℚ} (h0 : 0 ≤ r) (h1 : r ≤ 1) :
    0 ≤ mmCushion k r ∧ mmCushion k r ≤ 1 := by
  unfold mmCushion
  split_ifs with hk
  · obtain ⟨hf0, hf1⟩ := mmFactor_bounds k
    have hf0' : (0 : ℚ) ≤ max (3/10) (1 - (k : ℚ) * (1/4)) := le_trans (by norm_num) hf0
    constructor
    · exact mul_nonneg h0 hf0'
    · calc r * max (3/10 : ℚ) (1 - (k : ℚ) * (1/4)) ≤ 1 * 1 :=
          mul_le_mul h1 hf1 hf0' (by norm_num)
        _ = 1 := by norm_num
  · exact ⟨h0, h1⟩

lemma aaron_risk_bounds (initial : Option Nat) (kittens : Nat)
    (knownTop : Option (List String)) (v : BotView) :
    0 ≤ Aaron.calculate_ek_risk initial kittens knownTop v ∧
      Aaron.calculate_ek_risk initial kittens knownTop v ≤ 1 := by
  unfold Aaron.calculate_ek_risk
  rcases knownTop with _ | (_ | ⟨v0, vs⟩) <;> dsimp only
  · exact defuse_scale_bounds
      (min_one_div_bounds (baselineKittens_nonneg _ _) (by positivity)) _
  · exact defuse_scale_bounds
      (min_one_div_bounds (baselineKittens_nonneg _ _) (by positivity)) _
  · split_ifs
    · norm_num
    · have hlen : (1 : ℚ) ≤ ((v0 :: vs).length : ℚ) := by
        have h1 : 1 ≤ (v0 :: vs).length := by simp
        exact_mod_cast h1
      refine ⟨by positivity, ?_⟩
      rw [div_le_one (by linarith)]
      exact hlen
    · exact min_one_div_bounds (baselineKittens_nonneg _ _) (by positivity)

lemma mm_risk_bounds (initial : Option Nat) (kittens : Nat)
    (knownTop : Option (List String)) (v : BotView) :
    0 ≤ Mastermind.calculate_ek_risk initial kittens knownTop v ∧
      Mastermind.calculate_ek_risk initial kittens knownTop v ≤ 1 := by
  unfold Mastermind.calculate_ek_risk
  split_ifs with hpile
  · norm_num
  · rcases knownTop with _ | (_ | ⟨v0, vs⟩) <;> dsimp only
    · exact mmCushion_bounds
        (min_one_div_bounds (baselineKittens_nonneg _ _) (by positivity)).1
        (min_one_div_bounds (baselineKittens_nonneg _ _) (by positivity)).2
    · exact mmCushion_bounds
        (min_one_div_bounds (baselineKittens_nonneg _ _) (by positivity)).1
        (min_one_div_bounds (baselineKittens_nonneg _ _) (by positivity)).2
    · have hb := @min_one_div_bounds
        (baselineKittens (pyOr initial v.turnOrder.length) kittens)
        (((max 1 (v.drawPileCount - (v0 :: vs).length) : Nat) : ℚ))
        (baselineKittens_nonneg _ _) (by positivity)
      split_ifs <;>
        first
          | (norm_num; done)
          | exact mmCushion_bounds hb.1 hb.2

/-- **C1 amended.** Both risk estimators always return a finite value in
[0, 1]; mastermind's returns exactly 0 when the draw pile count is 0;
aaron's returns exactly 1.0 whenever the known-top sequence has the hazard
at index 0, and mastermind's does so as long as the draw pile is non-empty
(on an empty pile its pile check wins and it returns 0, while aaron's
estimator does not return 0 on an empty pile — see the counterexample). -/
theorem c1_amended :
    (∀ (initial : Option Nat) (kittens : Nat) (knownTop : Option (List String)) (v : BotView),
      0 ≤ Aaron.calculate_ek_risk initial kittens knownTop v ∧
        Aaron.calculate_ek_risk initial kittens knownTop v ≤ 1) ∧
    (∀ (initial : Option Nat) (kittens : Nat) (knownTop : Option (List String)) (v : BotView),
      0 ≤ Mastermind.calculate_ek_risk initial kittens knownTop v ∧
        Mastermind.calculate_ek_risk initial kittens knownTop v ≤ 1) ∧
    (∀ (initial : Option Nat) (kittens : Nat) (knownTop : Option (List String)) (v : BotView),
      v.drawPileCount = 0 → Mastermind.calculate_ek_risk initial kittens knownTop v = 0) ∧
    (∀ (initial : Option Nat) (kittens : Nat) (rest : List String) (v : BotView),
      Aaron.calculate_ek_risk initial kittens (some (EXPLODING :: rest)) v = 1) ∧
    (∀ (initial : Option Nat) (kittens : Nat) (rest : List String) (v : BotView),
      v.drawPileCount ≠ 0 →
        Mastermind.calculate_ek_risk initial kittens (some (EXPLODING :: rest)) v = 1) := by
  refine ⟨aaron_risk_bounds, mm_risk_bounds, ?_, ?_, ?_⟩
  · intro initial kittens knownTop v h
    simp [Mastermind.calculate_ek_risk, h]
  · intro initial kittens rest v
    simp [Aaron.calculate_ek_risk]
  · intro initial kittens rest v h
    simp [Mastermind.calculate_ek_risk, h]

/-- Witness for C1 amended at concrete inputs. -/
theorem c1_amended_witness :
    Mastermind.calculate_ek_risk (some 4) 0 (some [SKIP]) zeroPileView = 0 ∧
      Mastermind.calculate_ek_risk (some 4) 0 (some [EXPLODING]) c1View = 1 ∧
      Aaron.calculate_ek_risk (some 4) 0 (some [EXPLODING]) c1View = 1 :=
  ⟨c1_amended.2.2.1 (some 4) 0 (some [SKIP]) zeroPileView rfl,
   c1_amended.2.2.2.2 (some 4) 0 [] c1View (by norm_num [zeroPileView, c1View]),
   c1_amended.2.2.2.1 (some 4) 0 [] c1View⟩

/-- **C1 counterexample.** With an empty draw pile, no peek knowledge,
4 initial players and no removed hazards, aaron_bot.py's estimator clamps
the deck size to `max(1, 0) = 1` and returns `min(1, 3/1) = 1`, not 0 as
the claim requires of every estimator. -/
theorem c1_counterexample :
    Aaron.calculate_ek_risk (some 4) 0 none zeroPileView = 1 ∧ (1 : ℚ) ≠ 0 := by
  refine ⟨?_, by norm_num⟩
  norm_num [Aaron.calculate_ek_risk, baselineKittens, pyOr, zeroPileView, c1View,
    BotView.count_cards_of_type, BotView.get_cards_of_type]

/-- **C2 counterexample.** With peek knowledge [safe, hazard, safe] the
hazard sits at 0-based index i = 1, so the claim demands 1/(i+1) = 1/2;
aaron_bot.py's estimator instead returns `1 / len(peek)` = 1/3. -/
theorem c2_counterexample :
    Aaron.calculate_ek_risk (some 4) 0 (some [SKIP, EXPLODING, SKIP]) c1View = 1/3 ∧
      (1/3 : ℚ) ≠ 1 / (1 + 1) := by
  refine ⟨?_, by norm_num⟩
  norm_num [Aaron.calculate_ek_risk, SKIP, EXPLODING]
  decide

/-- **C2 amended.** When the known-top sequence has a safe head and the
hazard behind it (0-based index i ≥ 1), aaron_bot.py's estimator returns
`1 / len(sequence)` — which equals 1/(i+1) only when the hazard is the last
revealed card — and mastermind_bot.py's returns the hard-coded 1/2 when
i = 1 and 0.33 (not exactly 1/3) for every i ≥ 2.  In particular on
[safe, hazard] both return 0.5 and on [safe, safe, hazard] they return 1/3
and 0.33 respectively (both ≈ 0.333). -/
theorem c2_amended (initial : Option Nat) (kittens : Nat) (v : BotView)
    (s0 : String) (rest : List String)
    (h0 : s0 ≠ EXPLODING) (hmem : EXPLODING ∈ rest) :
    Aaron.calculate_ek_risk initial kittens (some (s0 :: rest)) v
        = 1 / ((rest.length : ℚ) + 1) ∧
      (v.drawPileCount ≠ 0 →
        Mastermind.calculate_ek_risk initial kittens (some (s0 :: rest)) v
          = if (s0 :: rest).findIdx (fun c => c == EXPLODING) = 1
            then 1/2 else 33/100) := by
  have hbeq : ¬ ((s0 == EXPLODING) = true) := by simpa using h0
  have hbeq' : (s0 == EXPLODING) = false := by simpa using h0
  have hcont : (s0 :: rest).contains EXPLODING = true := by
    simp [List.mem_cons]
    exact Or.inr hmem
  constructor
  · unfold Aaron.calculate_ek_risk
    dsimp only
    rw [if_neg hbeq, if_pos hcont]
    have hlen : ((s0 :: rest).length : ℚ) = (rest.length : ℚ) + 1 := by
      push_cast [List.length_cons]
      ring
    rw [hlen]
  · intro hpile
    unfold Mastermind.calculate_ek_risk
    rw [if_neg hpile]
    dsimp only
    rw [if_neg hbeq, if_pos hcont]
    simp only [List.findIdx_cons, hbeq', cond_false]
    rw [if_neg (Nat.succ_ne_zero _)]

/-- Witness for C2 amended: on [safe, hazard] both estimators return 0.5;
on [safe, safe, hazard] aaron's returns 1/3 and mastermind's 0.33. -/
theorem c2_amended_witness :
    Aaron.calculate_ek_risk (some 4) 0 (some [SKIP, EXPLODING]) c1View = 1/2 ∧
      Mastermind.calculate_ek_risk (some 4) 0 (some [SKIP, EXPLODING]) c1View = 1/2 ∧
      Aaron.calculate_ek_risk (some 4) 0 (some [SKIP, SKIP, EXPLODING]) c1View = 1/3 ∧
      Mastermind.calculate_ek_risk (some 4) 0 (some [SKIP, SKIP, EXPLODING]) c1View
        = 33/100 := by
  have h1 := c2_amended (some 4) 0 c1View SKIP [EXPLODING] (by decide) (by decide)
  have h2 := c2_amended (some 4) 0 c1View SKIP [SKIP, EXPLODING] (by decide) (by decide)
  refine ⟨?_, ?_, ?_, ?_⟩
  · rw [h1.1]
    norm_num
  · rw [h1.2 (by decide)]
    norm_num [List.findIdx_cons, SKIP, EXPLODING]
    decide
  · rw [h2.1]
    norm_num
  · rw [h2.2 (by decide)]
    norm_num [List.findIdx_cons, SKIP, EXPLODING]
    decide

/-! ## C8: the neutralizer cushion -/

lemma stripDefuses_count (v : BotView) :
    (stripDefuses v).count_cards_of_type DEFUSE = 0 := by
  simp only [stripDefuses, BotView.count_cards_of_type, BotView.get_cards_of_type,
    List.filter_filter, List.length_eq_zero]
  apply List.filter_eq_nil_iff.mpr
  intro c _
  simp

lemma stripDefuses_turnOrder (v : BotView) : (stripDefuses v).turnOrder = v.turnOrder := rfl

lemma stripDefuses_pile (v : BotView) : (stripDefuses v).drawPileCount = v.drawPileCount := rfl

lemma mmCushion_pos {k : Nat} (h : 0 < k) (r : ℚ) : mmCushion k r = r * mmFactor k := by
  simp [mmCushion, mmFactor, h]

lemma mmCushion_zero (r : ℚ) : mmCushion 0 r = r := by
  simp [mmCushion]

/-- **C8 counterexample.** aaron_bot.py multiplies its baseline risk by the
constant 0.6 for every positive defuse count `k`, so no strictly decreasing
factor family `f` can describe the cushion: with 1 and 2 defuses the
returned risk is the same 9/100 while the cushion-free risk is 3/20, forcing
f 1 = f 2 = 3/5 and contradicting strict decrease. -/
theorem c8_counterexample :
    Aaron.calculate_ek_risk (some 4) 0 none (c8View 0) = 3/20 ∧
      Aaron.calculate_ek_risk (some 4) 0 none (c8View 1) = 9/100 ∧
      Aaron.calculate_ek_risk (some 4) 0 none (c8View 2) = 9/100 ∧
      ¬ ∃ f : ℕ → ℚ,
        (∀ k, 1 ≤ k →
          Aaron.calculate_ek_risk (some 4) 0 none (c8View k)
            = Aaron.calculate_ek_risk (some 4) 0 none (c8View 0) * f k) ∧
        (∀ j k, 1 ≤ j → j < k → f k < f j) := by
  have e0 : Aaron.calculate_ek_risk (some 4) 0 none (c8View 0) = 3/20 := by
    norm_num [Aaron.calculate_ek_risk, baselineKittens, pyOr, c8View,
      BotView.count_cards_of_type, BotView.get_cards_of_type, List.replicate]
  have e1 : Aaron.calculate_ek_risk (some 4) 0 none (c8View 1) = 9/100 := by
    norm_num [Aaron.calculate_ek_risk, baselineKittens, pyOr, c8View,
      BotView.count_cards_of_type, BotView.get_cards_of_type, List.replicate, DEFUSE]
  have e2 : Aaron.calculate_ek_risk (some 4) 0 none (c8View 2) = 9/100 := by
    norm_num [Aaron.calculate_ek_risk, baselineKittens, pyOr, c8View,
      BotView.count_cards_of_type, BotView.get_cards_of_type, List.replicate, DEFUSE]
  refine ⟨e0, e1, e2, ?_⟩
  rintro ⟨f, hf, hs⟩
  have h1 := hf 1 (le_refl 1)
  have h2 := hf 2 (by norm_num)
  rw [e0, e1] at h1
  rw [e0, e2] at h2
  have hf1 : f 1 = 3/5 := by linarith
  have hf2 : f 2 = 3/5 := by linarith
  have hlt := hs 1 2 (le_refl 1) (by norm_num)
  rw [hf1, hf2] at hlt
  exact absurd hlt (lt_irrefl _)

/-- **C8 amended.** The cushion is only applied on the no-peek (aaron) or
hazard-free (mastermind) paths, and its factor is: the constant 0.6 in
aaron_bot.py, independent of the defuse count; and `max(0.3, 1 - 0.25 k)`
in mastermind_bot.py, which lies in [0.3, 0.75] for k ≥ 1, is weakly
decreasing in k, and strictly decreasing only up to k = 3 (it is the
constant floor 0.3 from there on).  In both cases the returned risk is the
cushion-free risk times the factor. -/
theorem c8_amended :
    (∀ (initial : Option Nat) (kittens : Nat) (knownTop : Option (List String)) (v : BotView),
      topTruthy knownTop = false → 0 < v.count_cards_of_type DEFUSE →
        Aaron.calculate_ek_risk initial kittens knownTop v
          = Aaron.calculate_ek_risk initial kittens knownTop (stripDefuses v) * (3/5)) ∧
    (∀ (initial : Option Nat) (kittens : Nat) (knownTop : Option (List String)) (v : BotView),
      (∀ l, knownTop = some l → EXPLODING ∉ l) → 0 < v.count_cards_of_type DEFUSE →
        Mastermind.calculate_ek_risk initial kittens knownTop v
          = Mastermind.calculate_ek_risk initial kittens knownTop (stripDefuses v)
              * mmFactor (v.count_cards_of_type DEFUSE)) ∧
    (∀ k, 1 ≤ k → 3/10 ≤ mmFactor k ∧ mmFactor k ≤ 3/4) ∧
    (∀ j k, 1 ≤ j → j ≤ k → mmFactor k ≤ mmFactor j) ∧
    (∀ j k, 1 ≤ j → j < k → k ≤ 3 → mmFactor k < mmFactor j) := by
  refine ⟨?_, ?_, ?_, ?_, ?_⟩
  · intro initial kittens knownTop v htop hdef
    have hstrip := stripDefuses_count v
    rcases knownTop with _ | (_ | ⟨v0, vs⟩)
    · unfold Aaron.calculate_ek_risk
      dsimp only
      rw [if_pos hdef, if_neg (by rw [hstrip]; exact lt_irrefl 0)]
      rfl
    · unfold Aaron.calculate_ek_risk
      dsimp only
      rw [if_pos hdef, if_neg (by rw [hstrip]; exact lt_irrefl 0)]
      rfl
    · simp [topTruthy] at htop
  · intro initial kittens knownTop v hsafe hdef
    have hstrip := stripDefuses_count v
    unfold Mastermind.calculate_ek_risk
    by_cases hpile : v.drawPileCount = 0
    · rw [if_pos hpile, if_pos (by rw [stripDefuses_pile]; exact hpile)]
      rw [zero_mul]
    · rw [if_neg hpile, if_neg (by rw [stripDefuses_pile]; exact hpile)]
      rcases knownTop with _ | (_ | ⟨v0, vs⟩)
      · dsimp only
        rw [hstrip, mmCushion_zero, mmCushion_pos hdef]
        rfl
      · dsimp only
        rw [hstrip, mmCushion_zero, mmCushion_pos hdef]
        rfl
      · have hmem := hsafe (v0 :: vs) rfl
        have hne : ¬ ((v0 == EXPLODING) = true) := by
          simp only [beq_iff_eq]
          intro h
          apply hmem
          rw [← h]
          exact List.mem_cons_self v0 vs
        have hcont : ¬ ((v0 :: vs).contains EXPLODING = true) := by
          simpa using hmem
        dsimp only
        rw [if_neg hne, if_neg hcont, if_neg hne, if_neg hcont]
        rw [hstrip, mmCushion_zero, mmCushion_pos hdef]
        rfl
  · intro k hk
    constructor
    · exact le_max_left _ _
    · apply max_le
      · norm_num
      · have h1 : (1 : ℚ) ≤ (k : ℚ) := by exact_mod_cast hk
        nlinarith
  · intro j k hj hjk
    apply max_le_max le_rfl
    have hc : (j : ℚ) ≤ (k : ℚ) := by exact_mod_cast hjk
    nlinarith
  · intro j k hj hjk hk3
    have hj3 : j ≤ 3 := by omega
    interval_cases j <;> interval_cases k <;> norm_num [mmFactor]

/-- Witness for C8 amended: concrete cushioned evaluations for both bots,
and the strict part of the mastermind factor at k = 2, 3. -/
theorem c8_amended_witness :
    Aaron.calculate_ek_risk (some 4) 0 none (c8View 1)
        = Aaron.calculate_ek_risk (some 4) 0 none (stripDefuses (c8View 1)) * (3/5) ∧
      Mastermind.calculate_ek_risk (some 4) 0 none (c8View 2)
        = Mastermind.calculate_ek_risk (some 4) 0 none (stripDefuses (c8View 2))
            * mmFactor ((c8View 2).count_cards_of_type DEFUSE) ∧
      mmFactor 3 < mmFactor 2 :=
  ⟨c8_amended.1 (some 4) 0 none (c8View 1) rfl (by decide),
   c8_amended.2.1 (some 4) 0 none (c8View 2) (fun l h => nomatch h) (by decide),
   c8_amended.2.2.2.2 2 3 (by norm_num) (by norm_num) (by norm_num)⟩

/-! ## C7: the opponent models -/

/-- **C7 counterexample.** For an opponent whose only observed play is a
neutralizer (defuse), aaron_bot.py's `simulate_opponent` counts only
skip/attack/shuffle plays and returns defensive probability 0, while the
claim's formula (skip + redirect + reshuffle + neutralizer)/total capped at
0.9 gives 0.9. -/
theorem c7_counterexample :
    (Aaron.simulate_opponent [(DEFUSE, 1)]).1 = 0 ∧
      (0 : ℚ) ≠ min (9/10) ((0 + 0 + 0 + 1 : ℚ) / 1) := by
  have hS : counterGet [(DEFUSE, 1)] SKIP = 0 := by decide
  have hA : counterGet [(DEFUSE, 1)] ATTACK = 0 := by decide
  have hH : counterGet [(DEFUSE, 1)] SHUFFLE = 0 := by decide
  have hT : counterTotal [(DEFUSE, 1)] = 1 := by decide
  constructor
  · unfold Aaron.simulate_opponent
    dsimp only
    rw [if_neg (by rw [hT]; omega), hS, hA, hH, hT]
    norm_num
  · norm_num

/-- **C7 amended.** On zero observations aaron_bot.py's `simulate_opponent`
returns the neutral prior (0.3, 0.2), never zero; with observations it
returns min(0.8, (skip + redirect + reshuffle)/total) and
min(0.7, veto/total) — its defensive sum does not include the neutralizer
and its caps are 0.8/0.7, not 0.9.  mastermind_bot.py's
`_update_opponent_model` runs only once at least one play has been observed
and stores min(0.9, (skip + redirect + reshuffle + neutralizer)/total) and
min(0.8, veto/total). -/
theorem c7_amended (plays : List String) (history : List (String × Nat))
    (hS : counterGet history SKIP = plays.count SKIP)
    (hA : counterGet history ATTACK = plays.count ATTACK)
    (hH : counterGet history SHUFFLE = plays.count SHUFFLE)
    (hD : counterGet history DEFUSE = plays.count DEFUSE)
    (hN : counterGet history NOPE = plays.count NOPE)
    (hT : counterTotal history = plays.length) :
    (plays = [] → Aaron.simulate_opponent history = (3/10, 1/5)) ∧
    (plays ≠ [] →
      Aaron.simulate_opponent history
          = (min (4/5) ((specDefensiveCount plays : ℚ) / (plays.length : ℚ)),
             min (7/10) ((plays.count NOPE : ℚ) / (plays.length : ℚ))) ∧
        Mastermind.update_opponent_model history
          = some (min (9/10)
                    (((specDefensiveCount plays + plays.count DEFUSE : Nat) : ℚ)
                      / (plays.length : ℚ)),
                  min (4/5) ((plays.count NOPE : ℚ) / (plays.length : ℚ)))) := by
  constructor
  · intro hnil
    subst hnil
    have h0 : counterTotal history = 0 := by simpa using hT
    simp [Aaron.simulate_opponent, h0]
  · intro hne
    have hpos : 1 ≤ plays.length := by
      cases plays with
      | nil => exact absurd rfl hne
      | cons a l => simp
    have hT0 : ¬ (counterTotal history = 0) := by
      rw [hT]
      omega
    have hmax : max 1 (counterTotal history) = counterTotal history := by
      rw [hT]
      omega
    constructor
    · unfold Aaron.simulate_opponent
      dsimp only
      rw [if_neg hT0, hS, hA, hH, hN, hmax, hT]
      rfl
    · unfold Mastermind.update_opponent_model
      dsimp only
      rw [if_neg hT0, hS, hA, hH, hD, hN, hmax, hT]
      rfl

/-- Witness for C7 amended at a concrete history of one skip play and one
veto play. -/
theorem c7_amended_witness :
    Aaron.simulate_opponent [(SKIP, 1), (NOPE, 1)]
        = (min (4/5) ((specDefensiveCount [SKIP, NOPE] : ℚ) / (([SKIP, NOPE] : List String).length : ℚ)),
           min (7/10) ((([SKIP, NOPE] : List String).count NOPE : ℚ) / (([SKIP, NOPE] : List String).length : ℚ))) ∧
      Mastermind.update_opponent_model [(SKIP, 1), (NOPE, 1)]
        = some (min (9/10)
                  (((specDefensiveCount [SKIP, NOPE] + ([SKIP, NOPE] : List String).count DEFUSE : Nat) : ℚ)
                    / (([SKIP, NOPE] : List String).length : ℚ)),
                min (4/5) ((([SKIP, NOPE] : List String).count NOPE : ℚ) / (([SKIP, NOPE] : List String).length : ℚ))) :=
  (c7_amended [SKIP, NOPE] [(SKIP, 1), (NOPE, 1)] (by decide) (by decide) (by decide)
    (by decide) (by decide) (by decide)).2 (by decide)

/-! ## C9: hazard placement -/

lemma randintN_bounds {lo hi : Nat} (h : lo ≤ hi) (r : Nat) :
    lo ≤ randintN lo hi r ∧ randintN lo hi r ≤ hi := by
  unfold randintN
  have hm : r % (hi + 1 - lo) < hi + 1 - lo := Nat.mod_lt _ (by omega)
  omega

/-- **C9 counterexample.** my_bot.py's `choose_defuse_position` lacks the
`draw_pile_size <= 1` guard: for a 1-card pile it returns
`max(1, 1 - 1) = 1`, which is outside the legal range [0, 0]. -/
theorem c9_counterexample :
    MyBot.choose_defuse_position 1 = 1 ∧
      ¬ (MyBot.choose_defuse_position 1 ≤ 1 - 1) := by
  decide

/-- **C9 amended.** aaron_bot.py's and tft_bot.py's `choose_defuse_position`
return an index in [0, size - 1] for every size ≥ 1 and every random draw,
and return 0 exactly when size ≤ 1.  my_bot.py's version satisfies the range
and the never-0 rule for every size ≥ 2 but returns the out-of-range index 1
when size = 1. -/
theorem c9_amended :
    (∀ s r, 1 ≤ s →
      Aaron.choose_defuse_position s r ≤ s - 1 ∧
        (Aaron.choose_defuse_position s r = 0 ↔ s ≤ 1)) ∧
    (∀ s r, 1 ≤ s →
      TFT.choose_defuse_position s r ≤ s - 1 ∧
        (TFT.choose_defuse_position s r = 0 ↔ s ≤ 1)) ∧
    (∀ s, 2 ≤ s →
      1 ≤ MyBot.choose_defuse_position s ∧ MyBot.choose_defuse_position s ≤ s - 1) ∧
    MyBot.choose_defuse_position 1 = 1 := by
  refine ⟨?_, ?_, ?_, by decide⟩
  · intro s r hs
    unfold Aaron.choose_defuse_position
    split_ifs with h1
    · omega
    · have hmax : max 1 (s - 1) = s - 1 := by omega
      rw [hmax]
      obtain ⟨hb1, hb2⟩ := @randintN_bounds 1 (s - 1) (by omega) r
      omega
  · intro s r hs
    unfold TFT.choose_defuse_position
    split_ifs with h1 h2 h3 h4 h5
    · omega
    · exact ⟨by omega, by simp [h2]⟩
    · obtain ⟨hb1, hb2⟩ := @randintN_bounds 1 2 (by omega) r
      omega
    · have hmin : min 3 (s - 1) = 3 := by omega
      rw [hmin]
      obtain ⟨hb1, hb2⟩ := @randintN_bounds 1 3 (by omega) r
      omega
    · obtain ⟨hb1, hb2⟩ := @randintN_bounds 2 (s - 1) (by omega) r
      omega
    · obtain ⟨hb1, hb2⟩ := @randintN_bounds 4 (max 5 (3 * s / 4)) (by omega) r
      have hup : max 5 (3 * s / 4) ≤ s - 1 := by omega
      omega
  · intro s hs
    unfold MyBot.choose_defuse_position
    split_ifs with h1 <;> omega

/-- Witness for C9 amended at size 9 with random draw 5, and at the
boundary size 1 for my_bot. -/
theorem c9_amended_witness :
    (Aaron.choose_defuse_position 9 5 ≤ 8 ∧
        (Aaron.choose_defuse_position 9 5 = 0 ↔ (9 : ℕ) ≤ 1)) ∧
      (TFT.choose_defuse_position 9 5 ≤ 8 ∧
        (TFT.choose_defuse_position 9 5 = 0 ↔ (9 : ℕ) ≤ 1)) ∧
      (1 ≤ MyBot.choose_defuse_position 9 ∧ MyBot.choose_defuse_position 9 ≤ 8) :=
  ⟨c9_amended.1 9 5 (by decide), c9_amended.2.1 9 5 (by decide),
   c9_amended.2.2.1 9 (by decide)⟩

/-! ## C10: the reaction evaluator -/

/-- **C10.** Both reaction evaluators (my_bot.py and aaron_bot.py) pass
whenever the agent holds no veto (Nope) card, and both deterministically
veto — for every random draw r, so the stochastic bluff path is never
consulted — a redirect-turn (attack) card played with the agent itself as
target whenever at least one veto card is held. -/
theorem c10_react (v : BotView) (e : GameEvent) (r : ℚ) :
    (v.get_cards_of_type NOPE = [] →
      MyBot.react v e r = none ∧ Aaron.react v e r = none) ∧
    (∀ n rest, v.get_cards_of_type NOPE = n :: rest →
      e.event_type = .CARD_PLAYED → e.card_type = some ATTACK →
      e.target_player_id = some v.myId →
      MyBot.react v e r = some (.PlayCard n none) ∧
        Aaron.react v e r = some (.PlayCard n none)) := by
  constructor
  · intro h
    constructor <;> simp [MyBot.react, Aaron.react, h]
  · intro n rest hn ht hc htgt
    constructor <;> simp [MyBot.react, Aaron.react, hn, ht, hc, htgt]

/-- Witness for C10: with no veto card both evaluators pass; holding one,
both veto the attack that targets the agent, at a sample random draw. -/
theorem c10_react_witness :
    (MyBot.react noNopeView attackSelfEvent (1/2) = none ∧
        Aaron.react noNopeView attackSelfEvent (1/2) = none) ∧
      (MyBot.react nopeView attackSelfEvent (1/2) = some (.PlayCard ⟨NOPE, false⟩ none) ∧
        Aaron.react nopeView attackSelfEvent (1/2) = some (.PlayCard ⟨NOPE, false⟩ none)) :=
  ⟨(c10_react noNopeView attackSelfEvent (1/2)).1 (by decide),
   (c10_react nopeView attackSelfEvent (1/2)).2 ⟨NOPE, false⟩ [] (by decide) rfl rfl rfl⟩

end EKB
